import Mathlib

/-!
Shallow embedding of the porteight tracking proxy (Hono/TypeScript) for
verification of its specification claims.

Source files embedded:
- src/auth.ts (authMiddleware): identity-assertion extraction and auth errors
- src/dragonfly.ts (DragonflyClient.getToken/setToken): cache key prefixing
- src/truckFetcher.ts (getTruckRegistrationNos): authorized-resource lookup
  with cache and development fallback
- src/tinybird.ts (generateTinybirdToken): credential minting
- src/index.ts (app.all proxy handler): cache-aside credential resolution,
  header rewriting, error responses
- src/connectionPool.ts (RedisConnectionPool): pool state machine
-/

namespace Porteight

/-! ## Auth middleware (src/auth.ts) -/

/-- JavaScript truthiness for an optional string: undefined and the empty
string are falsy (the source chains cookie lookups with the JS or-operator,
which skips falsy values). -/
def jsTruthy : Option String → Bool
  | none => false
  | some s => !(s == "")

/-- The JS or-operator on optional strings: returns the left operand when
truthy, otherwise the right operand. -/
def jsOr (a b : Option String) : Option String :=
  if jsTruthy a then a else b

/-- An inbound request as seen by authMiddleware: its cookies and its
Authorization header. -/
structure AuthRequest where
  cookies : List (String × String)
  authHeader : Option String

/-- Cookie lookup (hono getCookie): first cookie with the given name. -/
def getCookie (r : AuthRequest) (name : String) : Option String :=
  (r.cookies.find? (fun p => p.1 == name)).map Prod.snd

/-- Token extraction of authMiddleware (src/auth.ts lines 24-36):
cookie auth_token or-else cookie jwt or-else cookie access_token, then the
Authorization Bearer header as fallback; a falsy final value means no token. -/
def extractToken (r : AuthRequest) : Option String :=
  let token := jsOr (jsOr (getCookie r "auth_token") (getCookie r "jwt"))
      (getCookie r "access_token")
  let token :=
    if jsTruthy token then token
    else
      match r.authHeader with
      | some h => if h.startsWith "Bearer " then some (h.drop 7) else token
      | none => token
  if jsTruthy token then token else none

/-- The spec-side description of extraction: the first truthy value among the
sources taken in priority order. Used to compare against extractToken. -/
def firstTruthy : List (Option String) → Option String
  | [] => none
  | o :: rest => if jsTruthy o then o else firstTruthy rest

/-- The Bearer-header source viewed on its own (header present, starts with
the Bearer prefix, token is the remainder). -/
def bearerSource : Option String → Option String
  | none => none
  | some h => if h.startsWith "Bearer " then some (h.drop 7) else none

/-- The four identity-assertion sources in the priority order the spec
states: three cookies, then the Authorization Bearer header. -/
def sourcesInOrder (r : AuthRequest) : List (Option String) :=
  [getCookie r "auth_token", getCookie r "jwt", getCookie r "access_token",
   bearerSource r.authHeader]

/-- A JSON error body as produced by the service: an error message, an
optional stable code field, and whether a timestamp field is included. -/
structure ErrorBody where
  error : String
  code : Option String
  hasTimestamp : Bool
deriving DecidableEq

/-- Error body of the authMiddleware AuthError branch (src/auth.ts lines
58-63): message, code AUTH_ERROR, timestamp. -/
def authErrorBody (msg : String) : ErrorBody :=
  { error := msg, code := some "AUTH_ERROR", hasTimestamp := true }

/-- The missing-credential message thrown when no token is found. -/
def missingCredentialMsg : String :=
  "Authentication required. Please provide a valid JWT token in cookies or Authorization header."

/-- Outcome of the extraction phase of authMiddleware: either a token to
verify, or the 401 missing-credential error response. -/
def authExtractOutcome (r : AuthRequest) : Except (Nat × ErrorBody) String :=
  match extractToken r with
  | some t => .ok t
  | none => .error (401, authErrorBody missingCredentialMsg)

/-! ## Cache keys and TTLs (src/dragonfly.ts, src/truckFetcher.ts, src/index.ts) -/

/-- A cache write: the Redis key and the TTL passed to setex. -/
structure CacheWrite where
  key : String
  ttl : Nat
deriving DecidableEq

/-- DragonflyClient.setToken / getToken prefix their userId argument
(src/dragonfly.ts lines 43, 64): the actual Redis key. -/
def dragonflyKey (userId : String) : String := "tinybird_token:" ++ userId

/-- The cache key string truckFetcher builds locally
(src/truckFetcher.ts line 9) before handing it to DragonflyClient. -/
def truckFetcherLocalKey (userId : String) : String := "truck_access:" ++ userId

/-- The Redis key actually used for the authorized-resource-set cache:
truckFetcher passes its local key to DragonflyClient.setToken/getToken, which
prefix it again. -/
def truckAccessRedisKey (userId : String) : String :=
  dragonflyKey (truckFetcherLocalKey userId)

/-- The Redis key the proxy handler uses for the credential cache
(src/index.ts lines 157, 183): built literally, not through DragonflyClient. -/
def credentialRedisKey (userId : String) : String := "tinybird_token:" ++ userId

/-- Truck-access cache TTL (src/truckFetcher.ts line 10). -/
def truckAccessCacheTTL : Nat := 300

/-- Credential cache TTL passed to setex (src/index.ts line 183). -/
def credentialCacheTTL : Nat := 3600

/-! ## Error response bodies (src/auth.ts lines 57-88, src/index.ts) -/

/-- Invalid-signature branch of authMiddleware (JsonWebTokenError). -/
def invalidTokenBody : ErrorBody :=
  { error := "Invalid authentication token format or signature",
    code := some "INVALID_TOKEN", hasTimestamp := true }

/-- Expired-token branch of authMiddleware (TokenExpiredError). -/
def tokenExpiredBody : ErrorBody :=
  { error := "Authentication token has expired. Please log in again.",
    code := some "TOKEN_EXPIRED", hasTimestamp := true }

/-- Fallback branch of authMiddleware for unexpected errors. -/
def authInternalBody : ErrorBody :=
  { error := "Internal authentication error",
    code := some "AUTH_INTERNAL_ERROR", hasTimestamp := true }

/-- Mint-failure response of the proxy handler (src/index.ts line 193):
the body is the bare error message, with no code and no timestamp. -/
def tinybirdErrorBody (msg : String) : ErrorBody :=
  { error := msg, code := none, hasTimestamp := false }

/-- Missing-configuration response of the proxy handler (src/index.ts
line 204). -/
def configErrorBody : ErrorBody :=
  { error := "TINYBIRD_API_URL not configured", code := none, hasTimestamp := false }

/-- Upstream-failure response of the proxy handler (src/index.ts line 298). -/
def upstreamErrorBody (msg : String) : ErrorBody :=
  { error := "Tinybird request failed: " ++ msg, code := none, hasTimestamp := false }

/-- Catch-all response of the proxy handler (src/index.ts line 301). -/
def internalServerErrorBody : ErrorBody :=
  { error := "Internal server error", code := none, hasTimestamp := false }

/-- The shape the claim asserts of every failure body: a stable code field
and a timestamp alongside the error message. -/
def hasStableShape (b : ErrorBody) : Prop :=
  b.code.isSome = true ∧ b.hasTimestamp = true

/-! ## Authorized-resource lookup (src/truckFetcher.ts) -/

/-- Environment of one getTruckRegistrationNos call: NODE_ENV, the outcome
of the cache lookup (throw, hit with parsed list, or miss), the outcome of
the PlanetScale query, and whether the cache store would fail. -/
structure TruckFetchEnv where
  nodeEnv : String
  cacheLookup : Except Unit (Option (List String))
  dbFetch : Except String (List String)
  storeFails : Bool

/-- getTruckRegistrationNos (src/truckFetcher.ts lines 8-50): cache hit
returns the cached list; cache miss or cache error falls through to the
PlanetScale fetch; a nonempty fetched list is cached (best effort) under the
truckFetcher key with TTL 300; a fetch error yields the hardcoded fallback
list when NODE_ENV is development and is rethrown otherwise. Returns the
result together with the cache writes performed. -/
def getTruckRegistrationNos (userId : String) (env : TruckFetchEnv) :
    Except String (List String) × List CacheWrite :=
  match env.cacheLookup with
  | .ok (some cached) => (.ok cached, [])
  | _ =>
    match env.dbFetch with
    | .ok trucks =>
      if trucks.length ≠ 0 ∧ env.storeFails = false then
        (.ok trucks, [{ key := truckAccessRedisKey userId, ttl := truckAccessCacheTTL }])
      else
        (.ok trucks, [])
    | .error e =>
      if env.nodeEnv == "development" then
        (.ok ["HT56E4521", "HR05G5555"], [])
      else
        (.error e, [])

/-! ## Credential minting (src/tinybird.ts generateTinybirdToken) -/

/-- One scope entry of the Tinybird JWT payload. -/
structure TokenScope where
  type : String
  resource : String
  registrationNo : List String
deriving DecidableEq

/-- The Tinybird JWT payload built by generateTinybirdToken. Signing with
the symmetric key is injective on payloads, so the signed credential is
identified with its payload. -/
structure TinybirdJWTPayload where
  workspace_id : String
  name : String
  exp : Nat
  scopes : List TokenScope
  rps : Nat
deriving DecidableEq

/-- A TinybirdError: message and HTTP status code. -/
structure TinybirdErr where
  message : String
  statusCode : Nat
deriving DecidableEq

/-- Environment of one generateTinybirdToken call. -/
structure MintEnv where
  workspaceId : Option String
  signingKey : Option String
  truckEnv : TruckFetchEnv
  nowMs : Nat

/-- generateTinybirdToken (src/tinybird.ts lines 35-102): checks the two
required settings, fetches the authorized resource set, rejects an empty
set with a 404 TinybirdError, and otherwise builds the payload with
exp = now in unix seconds + 3600, two PIPES:READ scopes each carrying the
full resource list, and rps 1. A non-TinybirdError from the fetch is
wrapped as a 500 TinybirdError. Also returns the cache writes performed by
the resource fetch. -/
def generateTinybirdToken (userId : String) (env : MintEnv) :
    Except TinybirdErr TinybirdJWTPayload × List CacheWrite :=
  match env.workspaceId with
  | none =>
    (.error ⟨"TINYBIRD_WORKSPACE_ID environment variable is not configured", 500⟩, [])
  | some wid =>
    match env.signingKey with
    | none =>
      (.error ⟨"TINYBIRD_SIGNING_KEY environment variable is not configured", 500⟩, [])
    | some _ =>
      match getTruckRegistrationNos userId env.truckEnv with
      | (.error e, writes) =>
        (.error ⟨"Failed to generate Tinybird token: " ++ e, 500⟩, writes)
      | (.ok trucks, writes) =>
        if trucks.length = 0 then
          (.error ⟨"No truck registration numbers found for user " ++ userId, 404⟩, writes)
        else
          (.ok { workspace_id := wid,
                 name := "user_" ++ userId ++ "_jwt",
                 exp := env.nowMs / 1000 + 3600,
                 scopes := [⟨"PIPES:READ", "truck_history_endpoint", trucks⟩,
                            ⟨"PIPES:READ", "truck_location_endpoint", trucks⟩],
                 rps := 1 }, writes)

/-! ## Proxy handler credential resolution (src/index.ts lines 151-199) -/

/-- What the proxy handler does after resolving the credential for a
request: forward with a token, or answer with an error status and body. -/
inductive HandlerOutcome where
  | forwarded : TinybirdJWTPayload → HandlerOutcome
  | errorResp : Nat → ErrorBody → HandlerOutcome
deriving DecidableEq

/-- Environment of one proxy-handler credential resolution: the subject,
the outcome of the credential-cache lookup through the pool (throw, hit, or
miss), the mint environment, and whether the credential-cache store would
fail. -/
structure HandlerEnv where
  userId : String
  cacheLookup : Except Unit (Option TinybirdJWTPayload)
  mintEnv : MintEnv
  storeFails : Bool

/-- The cache-miss mint path of the proxy handler (src/index.ts lines
151-199): a cache-lookup failure is caught and treated as a miss; on a hit
the cached credential is used; on a miss the credential is minted, cached
best effort under tinybird_token:userId with TTL 3600 (a store failure is
caught and ignored), and a TinybirdError is mapped to its status code with
a bare-message body. Returns the outcome and all cache writes. -/
def resolveToken (env : HandlerEnv) : HandlerOutcome × List CacheWrite :=
  let cached : Option TinybirdJWTPayload :=
    match env.cacheLookup with
    | .ok v => v
    | .error _ => none
  match cached with
  | some tok => (.forwarded tok, [])
  | none =>
    match generateTinybirdToken env.userId env.mintEnv with
    | (.ok tok, writes) =>
      if env.storeFails then
        (.forwarded tok, writes)
      else
        (.forwarded tok,
         writes ++ [{ key := credentialRedisKey env.userId, ttl := credentialCacheTTL }])
    | (.error e, writes) =>
      (.errorResp e.statusCode (tinybirdErrorBody e.message), writes)

/-! ## Credential expiry versus cache TTL (src/tinybird.ts line 59,
src/index.ts line 183) -/

/-- Credential validity window in seconds: exp is minted as
unix-seconds-now plus 3600. -/
def tokenValiditySec : Nat := 3600

/-- Absolute credential expiry in milliseconds for a mint at mintMs:
the source computes exp in whole unix seconds, flooring the mint time. -/
def credentialExpMs (mintMs : Nat) : Nat := (mintMs / 1000 + tokenValiditySec) * 1000

/-- Whether a setex write at storeMs with the credential cache TTL still
serves a hit at time t (standard Redis expiry: the key lives for TTL
seconds from the write). -/
def cacheHitAt (storeMs t : Nat) : Prop :=
  storeMs ≤ t ∧ t < storeMs + credentialCacheTTL * 1000

/-- Whether the credential minted at mintMs is past expiry at time t
(a JWT is expired once now reaches exp). -/
def tokenExpiredAt (mintMs t : Nat) : Prop :=
  credentialExpMs mintMs ≤ t

instance (storeMs t : Nat) : Decidable (cacheHitAt storeMs t) := by
  unfold cacheHitAt; infer_instance

instance (mintMs t : Nat) : Decidable (tokenExpiredAt mintMs t) := by
  unfold tokenExpiredAt; infer_instance

/-- The property claim C2 asserts: the cache TTL is strictly shorter than
the credential validity window, and no cache hit ever serves a credential
past its expiry. -/
def c2ClaimProp : Prop :=
  credentialCacheTTL < tokenValiditySec ∧
    ∀ mintMs storeMs t, mintMs ≤ storeMs → cacheHitAt storeMs t →
      ¬ tokenExpiredAt mintMs t

/-! ## Theorems for C5 and C3 -/

lemma extractToken_eq_firstTruthy (r : AuthRequest) :
    extractToken r = firstTruthy (sourcesInOrder r) := by
  simp only [extractToken, sourcesInOrder, firstTruthy, jsOr, bearerSource]
  cases h1 : jsTruthy (getCookie r "auth_token") <;>
    cases h2 : jsTruthy (getCookie r "jwt") <;>
      cases h3 : jsTruthy (getCookie r "access_token") <;>
        cases hh : r.authHeader <;>
          · simp [h1, h2, h3]
            try (split <;> simp [h1, h2, h3])

/-- C5: for every request, the identity assertion is taken from the first
truthy source in the fixed priority order cookie auth_token, cookie jwt,
cookie access_token, then the Authorization Bearer header (so no later
source is consulted before an earlier one), and when none of the four
sources yields a token the outcome is the 401 missing-credential error
response. -/
theorem extraction_priority_and_missing_credential (r : AuthRequest) :
    extractToken r = firstTruthy (sourcesInOrder r) ∧
      (firstTruthy (sourcesInOrder r) = none →
        authExtractOutcome r = .error (401, authErrorBody missingCredentialMsg)) := by
  refine ⟨extractToken_eq_firstTruthy r, fun hnone => ?_⟩
  have h := extractToken_eq_firstTruthy r
  rw [hnone] at h
  simp [authExtractOutcome, h]

theorem extraction_priority_witness :
    extractToken ⟨[], none⟩ = firstTruthy (sourcesInOrder ⟨[], none⟩) ∧
      authExtractOutcome ⟨[], none⟩ =
        .error (401, authErrorBody missingCredentialMsg) :=
  ⟨(extraction_priority_and_missing_credential ⟨[], none⟩).1,
   (extraction_priority_and_missing_credential ⟨[], none⟩).2 (by decide)⟩

/-- C3 counterexample: the authorized-resource-set cache entry for subject
u1 is written under the Redis key tinybird_token:truck_access:u1 (the
truckFetcher key is prefixed again by DragonflyClient), not under
truck_access:u1 as the claim states. -/
theorem truck_access_key_counterexample :
    truckAccessRedisKey "u1" ≠ "truck_access:u1" ∧
      truckAccessRedisKey "u1" = "tinybird_token:truck_access:u1" := by
  constructor <;> decide

/-- C3 amended: the credential is cached under tinybird_token:s; the
authorized-resource-set is cached with TTL 300 under the doubly prefixed
Redis key tinybird_token:truck_access:s, because truckFetcher passes its
local key truck_access:s through DragonflyClient, which prefixes it again. -/
theorem cache_keys_amended (s : String) :
    credentialRedisKey s = "tinybird_token:" ++ s ∧
      truckFetcherLocalKey s = "truck_access:" ++ s ∧
      truckAccessRedisKey s = "tinybird_token:truck_access:" ++ s ∧
      truckAccessCacheTTL = 300 := by
  refine ⟨rfl, rfl, ?_, rfl⟩
  have h : ("tinybird_token:" ++ "truck_access:" : String) = "tinybird_token:truck_access:" := by
    decide
  show "tinybird_token:" ++ ("truck_access:" ++ s) = "tinybird_token:truck_access:" ++ s
  rw [← String.append_assoc, h]

/-! ## Theorems for C2 (cache TTL versus credential expiry) -/

/-- C2 counterexample: the cache TTL (3600s) is not strictly shorter than
the credential validity window (3600s), and a credential minted at 500ms
and stored at 500ms is still a cache hit at 3600200ms although its expiry
(3600000ms, floored to the mint second) has passed. -/
theorem credential_ttl_counterexample :
    ¬ c2ClaimProp ∧ cacheHitAt 500 3600200 ∧ tokenExpiredAt 500 3600200 := by
  refine ⟨fun h => absurd h.1 (by decide), by decide, by decide⟩

/-- C2 amended: the cache TTL equals the credential validity window (both
3600s, no safety margin), so a cache hit can be served past the credential
expiry, but only within the mint-to-store delay plus one second (the
sub-second remainder lost when exp is floored to whole seconds). -/
theorem credential_ttl_amended (mintMs storeMs t : Nat)
    (hms : mintMs ≤ storeMs) (hhit : cacheHitAt storeMs t) :
    credentialCacheTTL = tokenValiditySec ∧
      t < credentialExpMs mintMs + (storeMs - mintMs) + 1000 := by
  refine ⟨rfl, ?_⟩
  unfold cacheHitAt credentialCacheTTL at hhit
  unfold credentialExpMs tokenValiditySec
  omega

theorem credential_ttl_amended_witness :
    credentialCacheTTL = tokenValiditySec ∧
      3600200 < credentialExpMs 500 + (500 - 500) + 1000 :=
  credential_ttl_amended 500 500 3600200 (by decide) (by decide)

/-! ## Theorems for C4 (empty authorized-resource set) -/

/-- C4: when the credential cache misses, the configuration is present, the
truck-access cache misses and AccessIndex returns the empty set, minting
fails with the 404 no-authorized-resources TinybirdError, the handler
responds 404, and no cache entry at all is written. -/
theorem empty_resource_set_rejected (env : HandlerEnv) (wid skey : String)
    (hcache : env.cacheLookup = .ok none)
    (hwid : env.mintEnv.workspaceId = some wid)
    (hkey : env.mintEnv.signingKey = some skey)
    (htruckCache : env.mintEnv.truckEnv.cacheLookup = .ok none)
    (hdb : env.mintEnv.truckEnv.dbFetch = .ok []) :
    resolveToken env =
      (.errorResp 404
        (tinybirdErrorBody
          ("No truck registration numbers found for user " ++ env.userId)), []) := by
  simp [resolveToken, generateTinybirdToken, getTruckRegistrationNos,
        hcache, hwid, hkey, htruckCache, hdb]

/-- A concrete proxy-handler environment for subject u2 whose AccessIndex
result is the empty list. -/
def c4Env : HandlerEnv :=
  { userId := "u2", cacheLookup := .ok none, storeFails := false,
    mintEnv :=
      { workspaceId := some "ws", signingKey := some "sk", nowMs := 0,
        truckEnv :=
          { nodeEnv := "production", cacheLookup := .ok none,
            dbFetch := .ok [], storeFails := false } } }

theorem empty_resource_set_witness :
    resolveToken c4Env =
      (.errorResp 404
        (tinybirdErrorBody
          ("No truck registration numbers found for user " ++ c4Env.userId)), []) :=
  empty_resource_set_rejected c4Env "ws" "sk" rfl rfl rfl rfl rfl

/-! ## Theorems for C9 (cache failures downgraded to soft misses) -/

/-- C9: a credential-cache lookup failure is recovered locally and treated
as a miss: when minting succeeds the handler still forwards with the minted
credential, and a store failure likewise leaves the outcome unchanged. -/
theorem cache_failure_soft_miss (env : HandlerEnv) (tok : TinybirdJWTPayload)
    (writes : List CacheWrite)
    (hlookup : env.cacheLookup = .error ())
    (hmint : generateTinybirdToken env.userId env.mintEnv = (.ok tok, writes)) :
    (resolveToken env).1 = .forwarded tok ∧
      (resolveToken { env with storeFails := true }).1 = .forwarded tok := by
  constructor <;>
    · simp only [resolveToken, hlookup, hmint]
      split <;> rfl

/-- A concrete handler environment whose cache lookup throws and whose mint
succeeds; the minted payload it produces. -/
def c9Env : HandlerEnv :=
  { userId := "u1", cacheLookup := .error (), storeFails := false,
    mintEnv :=
      { workspaceId := some "ws", signingKey := some "sk", nowMs := 0,
        truckEnv :=
          { nodeEnv := "production", cacheLookup := .error (),
            dbFetch := .ok ["REG1", "REG2"], storeFails := true } } }

def c9Tok : TinybirdJWTPayload :=
  { workspace_id := "ws", name := "user_u1_jwt", exp := 3600,
    scopes := [⟨"PIPES:READ", "truck_history_endpoint", ["REG1", "REG2"]⟩,
               ⟨"PIPES:READ", "truck_location_endpoint", ["REG1", "REG2"]⟩],
    rps := 1 }

theorem cache_failure_soft_miss_witness :
    (resolveToken c9Env).1 = .forwarded c9Tok ∧
      (resolveToken { c9Env with storeFails := true }).1 = .forwarded c9Tok :=
  cache_failure_soft_miss c9Env c9Tok [] rfl rfl

/-! ## Theorems for C8 (error body shape) -/

/-- C8 counterexample: the mint-failure response body of the proxy handler
(here the 404 no-authorized-resources message) carries no code field and no
timestamp, refuting the claim that every failure body has the stable
three-field shape. -/
theorem error_body_shape_counterexample :
    ¬ hasStableShape
        (tinybirdErrorBody "No truck registration numbers found for user u2") := by
  intro h
  exact absurd h.1 (by decide)

/-- C8 amended: the four authMiddleware failure bodies carry error, stable
code and timestamp, but the proxy-handler failure bodies (mint errors,
missing configuration, upstream errors, internal errors) carry only the
error message, with no code and no timestamp. -/
theorem error_body_shape_amended (msg : String) :
    hasStableShape (authErrorBody msg) ∧ hasStableShape invalidTokenBody ∧
      hasStableShape tokenExpiredBody ∧ hasStableShape authInternalBody ∧
      (tinybirdErrorBody msg).code = none ∧
      (tinybirdErrorBody msg).hasTimestamp = false ∧
      (upstreamErrorBody msg).code = none ∧
      (upstreamErrorBody msg).hasTimestamp = false ∧
      configErrorBody.code = none ∧ internalServerErrorBody.code = none :=
  ⟨⟨rfl, rfl⟩, ⟨rfl, rfl⟩, ⟨rfl, rfl⟩, ⟨rfl, rfl⟩, rfl, rfl, rfl, rfl, rfl, rfl⟩

/-! ## Theorems for C10 (development fallback) -/

/-- C10: when the truck-access cache yields nothing and the PlanetScale
query throws, getTruckRegistrationNos returns the hardcoded fallback list
exactly when NODE_ENV is development, and rethrows the error in any other
environment. -/
theorem development_fallback (userId : String) (env : TruckFetchEnv) (e : String)
    (hmiss : env.cacheLookup = .ok none ∨ env.cacheLookup = .error ())
    (hdb : env.dbFetch = .error e) :
    (env.nodeEnv = "development" →
      getTruckRegistrationNos userId env = (.ok ["HT56E4521", "HR05G5555"], [])) ∧
    (env.nodeEnv ≠ "development" →
      getTruckRegistrationNos userId env = (.error e, [])) := by
  rcases hmiss with h | h <;>
    refine ⟨fun he => ?_, fun he => ?_⟩ <;>
      simp [getTruckRegistrationNos, h, hdb, he]

/-- A concrete development environment whose database query throws. -/
def devEnv : TruckFetchEnv :=
  { nodeEnv := "development", cacheLookup := .ok none,
    dbFetch := .error "db down", storeFails := false }

theorem development_fallback_witness :
    getTruckRegistrationNos "u1" devEnv = (.ok ["HT56E4521", "HR05G5555"], []) :=
  (development_fallback "u1" devEnv "db down" (Or.inl rfl) rfl).1 rfl

/-! ## C1: interleaved executions of the cache-miss mint path

Each request handler runs the miss path of src/index.ts lines 151-199 with
awaits between the cache read, the mint, and the cache write, so concurrent
handlers interleave at these points. A caller is modelled by its phase;
mint invocations are numbered, and since the minted payload depends on the
mint time (its exp field), invocation i is represented by token i. -/

/-- Phase of one concurrent caller of the miss path: about to read the
cache, saw a miss, holds a freshly minted token, or finished. -/
inductive CallerPhase where
  | start
  | missed
  | minted (tok : Nat)
  | done (tok : Nat)
deriving DecidableEq

/-- Shared state of the interleaved execution: the cache entry for the one
identity, the number of CredentialMinter invocations so far, and the
callers. -/
structure ConcState where
  cache : Option Nat
  mintCount : Nat
  callers : List CallerPhase
deriving DecidableEq

/-- One atomic step of caller i, following the source: the cache read
returns the cached token on a hit and otherwise records a miss; a caller
that saw a miss invokes the minter (a fresh invocation); a caller holding a
minted token writes it to the cache and finishes. -/
def stepCaller (s : ConcState) (i : Nat) : ConcState :=
  match s.callers[i]? with
  | none => s
  | some ph =>
    match ph with
    | .start =>
      match s.cache with
      | some t => { s with callers := s.callers.set i (.done t) }
      | none => { s with callers := s.callers.set i .missed }
    | .missed =>
      { s with mintCount := s.mintCount + 1,
               callers := s.callers.set i (.minted s.mintCount) }
    | .minted t =>
      { s with cache := some t, callers := s.callers.set i (.done t) }
    | .done _ => s

/-- Run a schedule: the list of caller indices taking steps in order. -/
def runSchedule (s : ConcState) (sched : List Nat) : ConcState :=
  sched.foldl stepCaller s

/-- Two concurrent callers on the same uncached identity. -/
def twoCallersInit : ConcState :=
  { cache := none, mintCount := 0, callers := [.start, .start] }

/-- C1: under the interleaving in which both callers read the cache before
either one has minted (both awaits resolve before either mint), the code
invokes CredentialMinter twice, not once, and the two callers finish with
distinct credentials (the mints happen at different times, so the minted
payloads differ in exp). -/
theorem concurrent_mint_duplicated :
    (runSchedule twoCallersInit [0, 1, 0, 1, 0, 1]).mintCount = 2 ∧
      (runSchedule twoCallersInit [0, 1, 0, 1, 0, 1]).callers =
        [.done 0, .done 1] ∧
      (runSchedule twoCallersInit [0, 1, 0, 1, 0, 1]).mintCount ≠ 1 := by
  decide

/-! ## C6: connection pool state machine (src/connectionPool.ts)

The accounting of the pool is mutated only in synchronous blocks between awaits
of the single-threaded event loop, so each such block is one atomic
transition. A connection is idle (in the available list), in use, in limbo
(released, health-check ping in flight: still in the pool array but in
neither set), or being created (the creating counter). -/

/-- Pool configuration: minConnections and maxConnections. -/
structure PoolConfig where
  minConnections : Nat
  maxConnections : Nat
deriving DecidableEq

/-- Pool accounting state. -/
structure PoolState where
  idle : Nat
  inUse : Nat
  limbo : Nat
  creating : Nat
deriving DecidableEq

/-- Number of live connections in the pool array (idle, in use, or
released-and-being-pinged). -/
def PoolState.poolLen (s : PoolState) : Nat := s.idle + s.inUse + s.limbo

/-- Total pooled connections counting in-flight creations. -/
def PoolState.total (s : PoolState) : Nat := s.poolLen + s.creating

/-- The atomic transitions of RedisConnectionPool. -/
inductive PoolStep (cfg : PoolConfig) : PoolState → PoolState → Prop where
  /-- acquire, fast path (lines 115-119): pop an available connection. -/
  | acquireIdle (s : PoolState) (h : 0 < s.idle) :
      PoolStep cfg s { s with idle := s.idle - 1, inUse := s.inUse + 1 }
  /-- acquire, creation path (line 122): guarded by
  pool.length + creating < maxConnections; creating is incremented before
  the first await inside createConnection. -/
  | acquireCreateStart (s : PoolState) (hidle : s.idle = 0)
      (hcap : s.poolLen + s.creating < cfg.maxConnections) :
      PoolStep cfg s { s with creating := s.creating + 1 }
  /-- createConnection succeeds for an acquirer (lines 123-128): creating
  is decremented, the connection joins the pool and the in-use set. -/
  | createOkAcquire (s : PoolState) (h : 0 < s.creating) :
      PoolStep cfg s { s with creating := s.creating - 1, inUse := s.inUse + 1 }
  /-- createConnection succeeds for warm-up or replenishment (lines 48-55,
  163-168): the connection joins the pool and the available list. -/
  | createOkIdle (s : PoolState) (h : 0 < s.creating) :
      PoolStep cfg s { s with creating := s.creating - 1, idle := s.idle + 1 }
  /-- createConnection fails (lines 87-92): creating is decremented. -/
  | createFail (s : PoolState) (h : 0 < s.creating) :
      PoolStep cfg s { s with creating := s.creating - 1 }
  /-- release starts (lines 150-155): the connection leaves the in-use set
  while its health-check ping is in flight. -/
  | releaseStart (s : PoolState) (h : 0 < s.inUse) :
      PoolStep cfg s { s with inUse := s.inUse - 1, limbo := s.limbo + 1 }
  /-- the ping succeeds (line 156): back to the available list. -/
  | releaseHealthy (s : PoolState) (h : 0 < s.limbo) :
      PoolStep cfg s { s with limbo := s.limbo - 1, idle := s.idle + 1 }
  /-- the ping fails and the pool is below minimum after eviction (lines
  158-168): the connection is removed and one replacement creation starts. -/
  | releaseUnhealthyReplenish (s : PoolState) (h : 0 < s.limbo)
      (hmin : s.idle + s.inUse + (s.limbo - 1) < cfg.minConnections) :
      PoolStep cfg s { s with limbo := s.limbo - 1, creating := s.creating + 1 }
  /-- the ping fails and no replenishment is needed: the connection is
  removed. -/
  | releaseUnhealthyDrop (s : PoolState) (h : 0 < s.limbo) :
      PoolStep cfg s { s with limbo := s.limbo - 1 }
  /-- an error or close event evicts an idle connection (lines 74-81,
  95-111). -/
  | evictIdle (s : PoolState) (h : 0 < s.idle) :
      PoolStep cfg s { s with idle := s.idle - 1 }
  /-- an error or close event evicts an in-use connection. -/
  | evictInUse (s : PoolState) (h : 0 < s.inUse) :
      PoolStep cfg s { s with inUse := s.inUse - 1 }

/-- Reachable pool states: the constructor synchronously starts
minConnections warm-up creations (initializePool calls createConnection
minConnections times, each incrementing creating before its first await),
then transitions fire. -/
inductive PoolReachable (cfg : PoolConfig) : PoolState → Prop where
  | init : PoolReachable cfg
      { idle := 0, inUse := 0, limbo := 0, creating := cfg.minConnections }
  | step (s s2 : PoolState) : PoolReachable cfg s → PoolStep cfg s s2 →
      PoolReachable cfg s2

lemma pool_total_bounded (cfg : PoolConfig) (s : PoolState)
    (hcfg : cfg.minConnections ≤ cfg.maxConnections)
    (hr : PoolReachable cfg s) : s.total ≤ cfg.maxConnections := by
  induction hr with
  | init => simpa [PoolState.total, PoolState.poolLen] using hcfg
  | step s s2 hr hstep ih =>
    cases hstep <;> simp_all [PoolState.total, PoolState.poolLen] <;> omega

/-- The decision acquire makes from the pool state (lines 113-131):
use an available connection, create a new one below the cap, or wait. -/
inductive AcquireDecision where
  | useIdle
  | createNew
  | wait
deriving DecidableEq

/-- The branch selection of acquire, following the source guards. -/
def acquireDecision (cfg : PoolConfig) (s : PoolState) : AcquireDecision :=
  if 0 < s.idle then .useIdle
  else if s.poolLen + s.creating < cfg.maxConnections then .createNew
  else .wait

/-- The error message of the acquire timeout (line 145). -/
def poolTimeoutMsg : String := "Connection pool timeout - no available connections"

/-- Outcome of the waiting branch (lines 132-147): a connection if one
became available within the timeout window, else the pool-timeout error. -/
def waitOutcome (becameAvailable : Bool) : Except String Unit :=
  if becameAvailable then .ok () else .error poolTimeoutMsg

/-- C6: with minConnections ≤ maxConnections, every reachable pool state
has at most maxConnections total connections (idle, in use, in limbo, plus
in-flight creations); and when no connection is idle and the pool plus
in-flight creations is at the cap, acquire takes the waiting branch, which
fails with the pool-timeout error if nothing becomes available. -/
theorem pool_cap_invariant_and_timeout (cfg : PoolConfig) (s s2 : PoolState)
    (hcfg : cfg.minConnections ≤ cfg.maxConnections)
    (hr : PoolReachable cfg s)
    (hidle : s2.idle = 0)
    (hcap : cfg.maxConnections ≤ s2.poolLen + s2.creating) :
    s.total ≤ cfg.maxConnections ∧
      acquireDecision cfg s2 = .wait ∧
      waitOutcome false = .error poolTimeoutMsg := by
  refine ⟨pool_total_bounded cfg s hcfg hr, ?_, rfl⟩
  have h1 : ¬ 0 < s2.idle := by omega
  have h2 : ¬ s2.poolLen + s2.creating < cfg.maxConnections := by omega
  simp [acquireDecision, h1, h2]

theorem pool_cap_witness :
    PoolState.total ⟨0, 0, 0, 5⟩ ≤ 50 ∧
      acquireDecision ⟨5, 50⟩ ⟨0, 50, 0, 0⟩ = .wait ∧
      waitOutcome false = .error poolTimeoutMsg :=
  pool_cap_invariant_and_timeout ⟨5, 50⟩ ⟨0, 0, 0, 5⟩ ⟨0, 50, 0, 0⟩
    (by decide) PoolReachable.init rfl (by decide)

/-! ## C7: header rewriting of the proxy forwarder (src/index.ts lines
221-237)

The outgoing headers are a JS object: insertion-ordered, with exact-key
overwrite. It starts from the Authorization Bearer entry and the JSON
content-type entry, then every incoming header whose lowercased name is not
authorization, host or cookie is assigned under its original casing. -/

/-- ASCII lowercasing of one character (JS toLowerCase on header names). -/
def lowerChar (c : Char) : Char :=
  if c.toNat ≥ 65 ∧ c.toNat ≤ 90 then Char.ofNat (c.toNat + 32) else c

/-- ASCII lowercasing of a string. -/
def lowerString (s : String) : String := ⟨s.data.map lowerChar⟩

/-- The filter of the source: drop a header when its lowercased name is
authorization, host or cookie. -/
def excludedHeader (k : String) : Bool :=
  lowerString k == "authorization" || lowerString k == "host" ||
    lowerString k == "cookie"

/-- Assignment into a JS object viewed as an insertion-ordered association
list: replace the value in place on an exact key match, else append. -/
def setKV : List (String × String) → String → String → List (String × String)
  | [], k, v => [(k, v)]
  | (k0, v0) :: rest, k, v =>
    if k0 == k then (k0, v) :: rest else (k0, v0) :: setKV rest k v

/-- Property read of a JS object: the value stored under an exact key. -/
def lookupKV (l : List (String × String)) (k : String) : Option String :=
  (l.find? (fun p => p.1 == k)).map Prod.snd

/-- The initial outgoing header object (lines 222-225). -/
def baseHeaders (token : String) : List (String × String) :=
  [("Authorization", "Bearer " ++ token), ("Content-Type", "application/json")]

/-- One step of the copy loop (lines 229-237). -/
def addHeader (acc : List (String × String)) (p : String × String) :
    List (String × String) :=
  if excludedHeader p.1 then acc else setKV acc p.1 p.2

/-- The outgoing header object for an incoming header list and a resolved
credential. -/
def buildHeaders (incoming : List (String × String)) (token : String) :
    List (String × String) :=
  incoming.foldl addHeader (baseHeaders token)

lemma lookupKV_setKV_self (l : List (String × String)) (k v : String) :
    lookupKV (setKV l k v) k = some v := by
  induction l with
  | nil => simp [setKV, lookupKV]
  | cons p rest ih =>
    obtain ⟨k0, v0⟩ := p
    by_cases h : (k0 == k) = true
    · simp [setKV, lookupKV, h]
    · simp only [setKV, h, Bool.false_eq_true, if_false]
      simpa [lookupKV, List.find?, h] using ih

lemma lookupKV_setKV_ne (l : List (String × String)) (k v k2 : String)
    (h : k2 ≠ k) :
    lookupKV (setKV l k v) k2 = lookupKV l k2 := by
  induction l with
  | nil =>
    have hk : (k == k2) = false := by
      cases hkk : k == k2
      · rfl
      · exact absurd (eq_of_beq hkk).symm h
    simp [setKV, lookupKV, hk]
  | cons p rest ih =>
    obtain ⟨k0, v0⟩ := p
    by_cases h0 : (k0 == k) = true
    · have h02 : (k0 == k2) = false := by
        cases hc : k0 == k2
        · rfl
        · exact absurd ((eq_of_beq hc).symm.trans (eq_of_beq h0)) h
      simp [setKV, lookupKV, h0, List.find?, h02]
    · simp only [setKV, h0, Bool.false_eq_true, if_false]
      by_cases h2 : (k0 == k2) = true
      · simp [lookupKV, List.find?, h2]
      · simpa [lookupKV, List.find?, h2] using ih

lemma mem_setKV (l : List (String × String)) (k v : String)
    (e : String × String) (he : e ∈ setKV l k v) : e ∈ l ∨ e = (k, v) := by
  induction l with
  | nil => simpa [setKV] using he
  | cons p rest ih =>
    obtain ⟨k0, v0⟩ := p
    by_cases h : (k0 == k) = true
    · simp only [setKV, h, if_true] at he
      rcases List.mem_cons.mp he with h1 | h1
      · right; rw [h1, eq_of_beq h]
      · exact Or.inl (List.mem_cons_of_mem _ h1)
    · simp only [setKV, h, Bool.false_eq_true, if_false] at he
      rcases List.mem_cons.mp he with h1 | h1
      · exact Or.inl (h1 ▸ List.mem_cons_self _ _)
      · rcases ih h1 with h2 | h2
        · exact Or.inl (List.mem_cons_of_mem _ h2)
        · exact Or.inr h2

lemma lookupKV_foldl_excluded (l : List (String × String))
    (acc : List (String × String)) (key : String)
    (hkey : excludedHeader key = true) :
    lookupKV (List.foldl addHeader acc l) key = lookupKV acc key := by
  induction l generalizing acc with
  | nil => rfl
  | cons p rest ih =>
    rw [List.foldl_cons, ih]
    unfold addHeader
    split
    · rfl
    · rename_i hne
      apply lookupKV_setKV_ne
      intro heq
      rw [heq] at hkey
      exact hne hkey

lemma lookupKV_foldl_of_not_set (l : List (String × String))
    (acc : List (String × String)) (key : String)
    (h : ∀ p ∈ l, p.1 ≠ key) :
    lookupKV (List.foldl addHeader acc l) key = lookupKV acc key := by
  induction l generalizing acc with
  | nil => rfl
  | cons p rest ih =>
    rw [List.foldl_cons, ih _ (fun q hq => h q (List.mem_cons_of_mem p hq))]
    unfold addHeader
    split
    · rfl
    · apply lookupKV_setKV_ne
      exact fun heq => h p (List.mem_cons_self p rest) heq.symm

lemma mem_foldl_addHeader (l : List (String × String))
    (acc : List (String × String)) (e : String × String)
    (he : e ∈ List.foldl addHeader acc l) :
    e ∈ acc ∨ excludedHeader e.1 = false := by
  induction l generalizing acc with
  | nil => exact Or.inl he
  | cons p rest ih =>
    rw [List.foldl_cons] at he
    rcases ih _ he with h | h
    · unfold addHeader at h
      split at h
      · exact Or.inl h
      · rename_i hne
        rcases mem_setKV acc p.1 p.2 e h with h2 | h2
        · exact Or.inl h2
        · right; rw [h2]; simpa using hne
    · exact Or.inr h

lemma isSome_lookupKV_foldl (l : List (String × String))
    (acc : List (String × String)) (key : String)
    (h : (lookupKV acc key).isSome = true) :
    (lookupKV (List.foldl addHeader acc l) key).isSome = true := by
  induction l generalizing acc with
  | nil => exact h
  | cons q rest ih =>
    rw [List.foldl_cons]
    apply ih
    unfold addHeader
    split
    · exact h
    · cases hk : key == q.1
      · rw [lookupKV_setKV_ne _ _ _ _ (fun heq => by simp [heq] at hk)]
        exact h
      · rw [eq_of_beq hk, lookupKV_setKV_self]; rfl

lemma mem_incoming_isSome (l : List (String × String))
    (acc : List (String × String)) (p : String × String)
    (hp : p ∈ l) (hex : excludedHeader p.1 = false) :
    (lookupKV (List.foldl addHeader acc l) p.1).isSome = true := by
  induction l generalizing acc with
  | nil => cases hp
  | cons q rest ih =>
    rw [List.foldl_cons]
    rcases List.mem_cons.mp hp with h | h
    · subst h
      apply isSome_lookupKV_foldl
      unfold addHeader
      rw [if_neg (by simp [hex]), lookupKV_setKV_self]
      rfl
    · exact ih _ h

/-- C7 counterexample: for an incoming request carrying a
Content-Type: text/plain header, the outgoing header object is not the
incoming set minus the three dropped names plus the Bearer and JSON
content-type entries: the JSON content-type is overwritten by the incoming
value and is absent from the outgoing headers. -/
theorem header_rewrite_counterexample :
    buildHeaders [("Content-Type", "text/plain")] "tok" =
      [("Authorization", "Bearer tok"), ("Content-Type", "text/plain")] ∧
      ("Content-Type", "application/json") ∉
        buildHeaders [("Content-Type", "text/plain")] "tok" := by
  constructor
  · decide
  · decide

/-- C7 amended: the outgoing headers always carry
Authorization: Bearer credential; every outgoing entry is the Bearer entry,
the JSON content-type entry, or an entry whose lowercased name is not
authorization, host or cookie (so all inbound Authorization, Host and
Cookie headers are dropped regardless of casing); the JSON content-type
survives exactly when no incoming header is named exactly Content-Type
(an exactly cased incoming Content-Type overwrites it, and other casings
are forwarded under their own key); and every non-dropped incoming header
name is present in the outgoing object. -/
theorem header_rewrite_amended (incoming : List (String × String)) (token : String) :
    lookupKV (buildHeaders incoming token) "Authorization" =
        some ("Bearer " ++ token) ∧
      (∀ e ∈ buildHeaders incoming token,
        e = ("Authorization", "Bearer " ++ token) ∨
          e = ("Content-Type", "application/json") ∨
          excludedHeader e.1 = false) ∧
      ((∀ p ∈ incoming, p.1 ≠ "Content-Type") →
        lookupKV (buildHeaders incoming token) "Content-Type" =
          some "application/json") ∧
      (∀ p ∈ incoming, excludedHeader p.1 = false →
        (lookupKV (buildHeaders incoming token) p.1).isSome = true) := by
  refine ⟨?_, ?_, ?_, ?_⟩
  · rw [buildHeaders, lookupKV_foldl_excluded _ _ _ (by decide)]
    rfl
  · intro e he
    rcases mem_foldl_addHeader incoming (baseHeaders token) e he with h | h
    · rcases List.mem_cons.mp h with h1 | h1
      · exact Or.inl h1
      · exact Or.inr (Or.inl (by simpa [baseHeaders] using h1))
    · exact Or.inr (Or.inr h)
  · intro hnone
    rw [buildHeaders, lookupKV_foldl_of_not_set _ _ _ hnone]
    rfl
  · intro p hp hex
    exact mem_incoming_isSome incoming (baseHeaders token) p hp hex

theorem header_rewrite_amended_witness :
    lookupKV (buildHeaders [("X-Custom", "1")] "tok") "Authorization" =
        some ("Bearer " ++ "tok") ∧
      lookupKV (buildHeaders [("X-Custom", "1")] "tok") "Content-Type" =
        some "application/json" ∧
      (lookupKV (buildHeaders [("X-Custom", "1")] "tok") "X-Custom").isSome = true :=
  ⟨(header_rewrite_amended [("X-Custom", "1")] "tok").1,
   (header_rewrite_amended [("X-Custom", "1")] "tok").2.2.1 (by decide),
   (header_rewrite_amended [("X-Custom", "1")] "tok").2.2.2 ("X-Custom", "1")
     (by decide) (by decide)⟩

end Porteight
